import Mathlib

/-
Verification of the Trellone board-synchronization layer against its
natural-language specification.  The definitions below are shallow
embeddings of the TypeScript source:

* `mapOrder`              — src/utils/sorts.ts as documented verbatim in
                            .cursor/rules/constants-management.mdc: a copy of
                            the entity array sorted with the comparator
                            `orderArray.indexOf(a[key]) - orderArray.indexOf(b[key])`.
                            ECMAScript 2019 mandates that Array.prototype.sort
                            is stable and that the result is sorted by the
                            comparator; for a rank comparator this determines
                            the output uniquely, and we model it with the
                            stable `List.mergeSort` over the rank order.
* reducers and handlers   — board.slice's `updateCardInBoard` and
                            `updateActiveBoard` (Redux rule file), the
                            ActiveCard modal's `handleUpdateActiveCard`, the
                            socket handlers `onUpdateBoard` / `onUpdateCard`,
                            `Column.tsx`'s `addNewCard`, the emoji reaction
                            payload construction in EmojiPickerPopover.tsx, and
                            `onReceiveNewInvitation` in Notifications.tsx.

Entity ids are modelled as naturals, field values as strings where only
equality matters.  JavaScript `null`/`undefined` inputs are modelled with
`Option`.
-/

namespace Trellone

/-- JavaScript `Array.prototype.indexOf`: index of the first occurrence of
`v` in `l`, and `-1` when `v` does not occur. -/
def jsIndexOf (l : List Nat) (v : Nat) : Int :=
  match l with
  | [] => -1
  | x :: xs =>
    if x = v then 0
    else
      let r := jsIndexOf xs v
      if r = -1 then -1 else r + 1

/-- The order induced by the comparator
`orderArray.indexOf(a[key]) - orderArray.indexOf(b[key])`:
`a` may be placed before `b` exactly when the comparator is ≤ 0. -/
def rankLe {α : Type} (ord : List Nat) (k : α → Nat) (a b : α) : Bool :=
  decide (jsIndexOf ord (k a) ≤ jsIndexOf ord (k b))

/-- `mapOrder` from src/utils/sorts.ts (quoted in
.cursor/rules/constants-management.mdc): returns `[]` when the entity array,
the order array or the key is missing, and otherwise a copy of the entity
array sorted by the index of each entity's key in the order array. -/
def mapOrder {α : Type} (originalArray : Option (List α))
    (orderArray : Option (List Nat)) (key : Option (α → Nat)) : List α :=
  match originalArray, orderArray, key with
  | some arr, some ord, some k => arr.mergeSort (rankLe ord k)
  | _, _, _ => []

/-- A generic record with an id-like key plus one other field, used to
instantiate `mapOrder` the way the app does for columns and cards. -/
structure Entity where
  key : Nat
  payload : Nat
deriving DecidableEq, Repr

/-- A card of the board (CardType from card.schema.ts, restricted to the
fields the verified handlers read or write).  `FE_PlaceholderCard` is the
client-only placeholder flag. -/
structure Card where
  _id : Nat
  board_id : Nat
  column_id : Nat
  title : String
  FE_PlaceholderCard : Bool := false
deriving DecidableEq, Repr

/-- A column of the board, with its embedded card list and the authoritative
card order list. -/
structure Column where
  _id : Nat
  board_id : Nat
  title : String
  cards : List Card
  card_order_ids : List Nat
deriving DecidableEq, Repr

/-- The active board aggregate held by the board slice. -/
structure Board where
  _id : Nat
  title : String
  columns : List Column
  column_order_ids : List Nat
deriving DecidableEq, Repr

/-- Socket events emitted by the client (app slice's socket). -/
inductive SocketEvent where
  | clientUserUpdatedCard (card : Card)
  | clientUserUpdatedBoard (board : Board)
deriving DecidableEq, Repr

/-- The client-side state the verified handlers touch: the board slice's
`activeBoard`, the card slice's `activeCard`, the list of user-facing toast
notifications, the socket events emitted so far, and the number of API
requests issued so far. -/
structure ClientState where
  activeBoard : Option Board
  activeCard : Option Card
  toasts : List String
  emitted : List SocketEvent
  requests : Nat
deriving DecidableEq, Repr

/-- board.slice's `updateActiveBoard` reducer: replaces the active board
with the payload (which may be null). -/
def updateActiveBoard (s : ClientState) (board : Option Board) : ClientState :=
  { s with activeBoard := board }

/-- Modelled from the spec: the card slice's `updateActiveCard` reducer
(src/store/slices/card.slice.ts is not among the sources; only its callers
are).  The spec describes the ActiveCard as a detached full copy of the open
card that reconciliation replaces with the canonical entity, so the reducer
replaces `activeCard` with the payload. -/
def updateActiveCard (s : ClientState) (card : Card) : ClientState :=
  { s with activeCard := some card }

/-- JavaScript `column.cards.find(c => c._id === incoming._id)` followed by
an in-place overwrite of every field: replaces the first card whose `_id`
matches the incoming card with the incoming card, and leaves the list
unchanged when no card matches. -/
def replaceFirstCard (cards : List Card) (incoming : Card) : List Card :=
  match cards with
  | [] => []
  | c :: cs =>
    if c._id == incoming._id then incoming :: cs
    else c :: replaceFirstCard cs incoming

/-- The column scan of board.slice's `updateCardInBoard`:
`state.activeBoard.columns.find(col => col._id === incomingCard.column_id)`
followed by the card overwrite inside the found column.  Only the first
column whose `_id` equals the payload's `column_id` is touched. -/
def updateCardInColumns (cols : List Column) (incoming : Card) : List Column :=
  match cols with
  | [] => []
  | col :: rest =>
    if col._id == incoming.column_id then
      { col with cards := replaceFirstCard col.cards incoming } :: rest
    else col :: updateCardInColumns rest incoming

/-- board.slice's `updateCardInBoard` reducer: a no-op when there is no
active board, and otherwise the column scan above applied to the active
board's columns. -/
def updateCardInBoard (s : ClientState) (incoming : Card) : ClientState :=
  match s.activeBoard with
  | none => s
  | some board =>
    { s with
      activeBoard := some { board with columns := updateCardInColumns board.columns incoming } }

/-- Read back the copy of a card embedded in the board: find the column with
the given id, then the card with the given id inside it (both first match,
as the reducer does). -/
def findCardInBoard (b : Board) (cardId columnId : Nat) : Option Card :=
  match b.columns.find? (fun col => col._id == columnId) with
  | some col => col.cards.find? (fun c => c._id == cardId)
  | none => none

/-- The toast text of queries/cards.ts's `updateCard.onQueryStarted` catch
branch. -/
def updateCardErrorToast : String := "There was an error updating the card"

/-- One call of the `updateCard` RTK-Query mutation (queries/cards.ts): one
request is issued; `onQueryStarted` awaits it and, on failure, records the
error toast once; the call's `unwrap()` then returns the server card or
rethrows the failure. -/
def updateCardMutationCall (s : ClientState) (response : Except String Card) :
    ClientState × Except String Card :=
  match response with
  | .error e => ({ s with requests := s.requests + 1, toasts := s.toasts ++ [updateCardErrorToast] }, .error e)
  | .ok c => ({ s with requests := s.requests + 1 }, .ok c)

/-- `handleUpdateActiveCard` of the ActiveCard modal: awaits the unwrapped
`updateCard` mutation; when it throws, nothing further runs; on success it
dispatches `updateActiveCard` then `updateCardInBoard` with the server's
canonical card and finally emits `CLIENT_USER_UPDATED_CARD` with it. -/
def handleUpdateActiveCard (s : ClientState) (response : Except String Card) :
    ClientState × Except String Card :=
  match updateCardMutationCall s response with
  | (s1, .error e) => (s1, .error e)
  | (s1, .ok updatedCard) =>
    let s2 := updateActiveCard s1 updatedCard
    let s3 := updateCardInBoard s2 updatedCard
    ({ s3 with emitted := s3.emitted ++ [SocketEvent.clientUserUpdatedCard updatedCard] },
      .ok updatedCard)

/-- The socket listener for `SERVER_CARD_UPDATED`: dispatches
`updateActiveCard` then `updateCardInBoard` with the received card,
unconditionally. -/
def onUpdateCard (s : ClientState) (card : Card) : ClientState :=
  updateCardInBoard (updateActiveCard s card) card

/-- The socket listener for `SERVER_BOARD_UPDATED`: dispatches
`updateActiveBoard` with the received board, unconditionally. -/
def onUpdateBoard (s : ClientState) (board : Board) : ClientState :=
  updateActiveBoard s (some board)

/-- Observable events of one mutation call's lifecycle, in the order the
code performs them. -/
inductive LifecycleEv where
  | dispatchActiveCard (c : Card)
  | dispatchCardInBoard (c : Card)
  | dispatchActiveBoard (b : Board)
  | requestIssued
  | resolved (ok : Bool)
  | emitCard (c : Card)
  | emitBoard (b : Board)
deriving DecidableEq, Repr

/-- Whether a lifecycle event is a push-channel emit. -/
def isEmitEv : LifecycleEv → Bool
  | .emitCard _ => true
  | .emitBoard _ => true
  | _ => false

/-- Whether a lifecycle event is the network call's resolution. -/
def isResolvedEv : LifecycleEv → Bool
  | .resolved _ => true
  | _ => false

/-- Every push-channel emit in the trace occurs strictly after the network
call's resolution: the prefix of the trace before the first `resolved`
event contains no emit. -/
def emitsOnlyAfterResolution (t : List LifecycleEv) : Prop :=
  ((t.takeWhile (fun ev => ! isResolvedEv ev)).all (fun ev => ! isEmitEv ev)) = true

/-- The lifecycle trace of `handleUpdateActiveCard`: the request is issued
and awaited; on success the two store dispatches carry the server's
canonical card, and the emit follows them; on failure nothing follows the
resolution. -/
def handleUpdateActiveCardTrace (response : Except String Card) : List LifecycleEv :=
  match response with
  | .error _ => [.requestIssued, .resolved false]
  | .ok u =>
    [.requestIssued, .resolved true,
     .dispatchActiveCard u, .dispatchCardInBoard u, .emitCard u]

/-- The board assembled locally by `onMoveColumns` before any network
activity: the dragged column order applied to the current active board. -/
def moveColumnsLocalBoard (activeBoard : Board) (dndOrderedColumns : List Column) : Board :=
  { activeBoard with
    columns := dndOrderedColumns
    column_order_ids := dndOrderedColumns.map (fun c => c._id) }

/-- The lifecycle trace of `onMoveColumns` (column drag persistence): the
locally assembled board is dispatched first (optimistic apply), the
`updateBoard` request is fired without being awaited, the broadcast emit of
the same local board follows immediately, and the network resolution only
arrives afterwards.  The eventual server response is never dispatched. -/
def onMoveColumnsTrace (activeBoard : Board) (dndOrderedColumns : List Column)
    (response : Except String Board) : List LifecycleEv :=
  let newActiveBoard := moveColumnsLocalBoard activeBoard dndOrderedColumns
  [.dispatchActiveBoard newActiveBoard,
   .requestIssued,
   .emitBoard newActiveBoard,
   .resolved response.toBool]

/-- One reaction on a comment (card.schema.ts). -/
structure Reaction where
  reaction_id : Nat
  emoji : String
  user_email : String
deriving DecidableEq, Repr

/-- One comment on a card, with its reaction list. -/
structure CardComment where
  comment_id : Nat
  reactions : List Reaction
deriving DecidableEq, Repr

/-- The `action` field of a reaction request (CardCommentReactionAction). -/
inductive ReactionAction where
  | add
  | remove
deriving DecidableEq, Repr

/-- The body sent by the reaction toggle request. -/
structure ReactionPayload where
  emoji : String
  action : ReactionAction
  reaction_id : Option Nat
deriving DecidableEq, Repr

/-- `handleEmojiSelect` of EmojiPickerPopover.tsx, up to the request body it
issues: search the active comment's reactions for one whose emoji is the
selected emoji and whose `user_email` is the current profile's email; the
action is `remove` with that reaction's id when found, and `add` otherwise. -/
def buildReactionPayload (activeComment : CardComment) (profileEmail : Option String)
    (emoji : String) : ReactionPayload :=
  let currentUserReaction :=
    activeComment.reactions.find?
      (fun r => r.emoji == emoji && some r.user_email == profileEmail)
  { emoji := emoji
    action := if currentUserReaction.isSome then .remove else .add
    reaction_id := currentUserReaction.map (fun r => r.reaction_id) }

/-- The body of the `addCard` request built by `Column.tsx`'s `addNewCard`:
only the typed title and the column's ids are sent. -/
structure AddCardBody where
  title : String
  column_id : Nat
  board_id : Nat
deriving DecidableEq, Repr

/-- `addNewCard`'s request construction: `{ title, column_id, board_id }`.
It reads nothing from the column's card list, so the placeholder card can
never be part of a request. -/
def buildAddCardBody (newCardTitle : String) (column : Column) : AddCardBody :=
  { title := newCardTitle, column_id := column._id, board_id := column.board_id }

/-- The board update `addNewCard` performs after the server returns the new
card: in the first column whose `_id` is the new card's `column_id`, either
replace both lists with just the new card when a placeholder is present, or
append the new card to both lists. -/
def addCardToColumns (cols : List Column) (newCard : Card) : List Column :=
  match cols with
  | [] => []
  | col :: rest =>
    if col._id == newCard.column_id then
      (if col.cards.any (fun c => c.FE_PlaceholderCard) then
        { col with cards := [newCard], card_order_ids := [newCard._id] }
      else
        { col with
          cards := col.cards ++ [newCard]
          card_order_ids := col.card_order_ids ++ [newCard._id] }) :: rest
    else col :: addCardToColumns rest newCard

/-- A board invitation (invitation.schema.ts, restricted to the fields the
notification handler reads). -/
structure Invitation where
  _id : Nat
  invitee_id : Nat
  board_id : Nat
deriving DecidableEq, Repr

/-- The notification-related state of Notifications.tsx: the notification
slice's list plus the component's `hasNewNotification` flag. -/
structure NotificationsState where
  notifications : List Invitation
  hasNewNotification : Bool
deriving DecidableEq, Repr

/-- Modelled from the spec: the notification slice's `addNotification`
reducer (src/store/slices/notification.slice.ts is not among the sources;
only its caller is).  It adds the received invitation to the notifications
list. -/
def addNotification (s : NotificationsState) (inv : Invitation) : NotificationsState :=
  { s with notifications := s.notifications ++ [inv] }

/-- `onReceiveNewInvitation` of Notifications.tsx: when the invitation's
`invitee_id` equals the logged-in profile's `_id`, dispatch
`addNotification` and raise the new-notification flag; otherwise do
nothing. -/
def onReceiveNewInvitation (profileId : Option Nat) (s : NotificationsState)
    (invitation : Invitation) : NotificationsState :=
  if some invitation.invitee_id == profileId then
    { addNotification s invitation with hasNewNotification := true }
  else s

/-- The store dispatches of card payloads in a lifecycle trace, in order. -/
def dispatchedCards (t : List LifecycleEv) : List Card :=
  t.filterMap (fun ev =>
    match ev with
    | .dispatchActiveCard c => some c
    | .dispatchCardInBoard c => some c
    | _ => none)

/-- The store dispatches of board payloads in a lifecycle trace, in order. -/
def dispatchedBoards (t : List LifecycleEv) : List Board :=
  t.filterMap (fun ev =>
    match ev with
    | .dispatchActiveBoard b => some b
    | _ => none)

/-- The card payloads emitted on the push channel in a lifecycle trace. -/
def emittedCards (t : List LifecycleEv) : List Card :=
  t.filterMap (fun ev =>
    match ev with
    | .emitCard c => some c
    | _ => none)

/-- The board payloads emitted on the push channel in a lifecycle trace. -/
def emittedBoards (t : List LifecycleEv) : List Board :=
  t.filterMap (fun ev =>
    match ev with
    | .emitBoard b => some b
    | _ => none)

/-- The readback of `findCardInBoard` phrased on a raw column list. -/
def findCardInColumns (cols : List Column) (cardId columnId : Nat) : Option Card :=
  match cols.find? (fun col => col._id == columnId) with
  | some col => col.cards.find? (fun c => c._id == cardId)
  | none => none

/- Concrete fixtures used by the counterexamples and witnesses below. -/

def cex1Entity : Entity := { key := 1, payload := 0 }

def cex3Card : Card := { _id := 1, board_id := 1, column_id := 10, title := "old" }
def cex3ColA : Column :=
  { _id := 10, board_id := 1, title := "A", cards := [cex3Card], card_order_ids := [1] }
def cex3ColB : Column :=
  { _id := 20, board_id := 1, title := "B", cards := [], card_order_ids := [] }
def cex3Board : Board :=
  { _id := 1, title := "b", columns := [cex3ColA, cex3ColB], column_order_ids := [10, 20] }
def cex3State : ClientState :=
  { activeBoard := some cex3Board, activeCard := some cex3Card
    toasts := [], emitted := [], requests := 0 }
def cex3Incoming : Card := { _id := 1, board_id := 1, column_id := 20, title := "new" }

def w3Card : Card := { _id := 31, board_id := 3, column_id := 30, title := "old" }
def w3Col : Column :=
  { _id := 30, board_id := 3, title := "A", cards := [w3Card], card_order_ids := [31] }
def w3Board : Board :=
  { _id := 3, title := "board3", columns := [w3Col], column_order_ids := [30] }
def w3State : ClientState :=
  { activeBoard := some w3Board, activeCard := some w3Card
    toasts := [], emitted := [], requests := 0 }
def w3Incoming : Card := { _id := 31, board_id := 3, column_id := 30, title := "renamed" }

def cex4Col : Column := { _id := 41, board_id := 4, title := "c", cards := [], card_order_ids := [] }
def cex4Board : Board := { _id := 4, title := "b4", columns := [cex4Col], column_order_ids := [41] }
def cex4Server : Board := { _id := 4, title := "server", columns := [], column_order_ids := [] }

def cex5Card : Card := { _id := 51, board_id := 5, column_id := 50, title := "old" }
def cex5ColA : Column :=
  { _id := 50, board_id := 5, title := "A", cards := [cex5Card], card_order_ids := [51] }
def cex5ColB : Column :=
  { _id := 60, board_id := 5, title := "B", cards := [], card_order_ids := [] }
def cex5Board : Board :=
  { _id := 5, title := "b5", columns := [cex5ColA, cex5ColB], column_order_ids := [50, 60] }
def cex5State : ClientState :=
  { activeBoard := some cex5Board, activeCard := none, toasts := [], emitted := [], requests := 0 }
def cex5Incoming : Card := { _id := 51, board_id := 5, column_id := 60, title := "new" }

def w5Card : Card := { _id := 55, board_id := 5, column_id := 56, title := "old" }
def w5Col : Column :=
  { _id := 56, board_id := 5, title := "A", cards := [w5Card], card_order_ids := [55] }
def w5Board : Board := { _id := 5, title := "w5", columns := [w5Col], column_order_ids := [56] }
def w5State : ClientState :=
  { activeBoard := some w5Board, activeCard := none, toasts := [], emitted := [], requests := 0 }
def w5Incoming : Card := { _id := 55, board_id := 5, column_id := 56, title := "new" }
def w5Stray : Card := { _id := 99, board_id := 5, column_id := 56, title := "stray" }

def w6Reaction : Reaction := { reaction_id := 61, emoji := "thumbs", user_email := "a@b.c" }
def w6Comment : CardComment := { comment_id := 6, reactions := [w6Reaction] }

def cex7Current : Board := { _id := 70, title := "current", columns := [], column_order_ids := [] }
def cex7Foreign : Board := { _id := 71, title := "foreign", columns := [], column_order_ids := [] }
def cex7State : ClientState :=
  { activeBoard := some cex7Current, activeCard := none, toasts := [], emitted := [], requests := 0 }
def w7Card : Card := { _id := 72, board_id := 71, column_id := 73, title := "t" }

def w8Placeholder : Card :=
  { _id := 80, board_id := 8, column_id := 81, title := "ph", FE_PlaceholderCard := true }
def w8ColEmpty : Column :=
  { _id := 81, board_id := 8, title := "empty", cards := [w8Placeholder], card_order_ids := [80] }
def w8New : Card := { _id := 82, board_id := 8, column_id := 81, title := "first real card" }

def w10Inv : Invitation := { _id := 100, invitee_id := 7, board_id := 3 }
def w10State : NotificationsState := { notifications := [], hasNewNotification := false }

/- Helper lemmas. -/

/-- The rank order used by `mapOrder` is transitive. -/
theorem rankLe_trans {α : Type} (ord : List Nat) (k : α → Nat) :
    ∀ a b c : α, rankLe ord k a b → rankLe ord k b c → rankLe ord k a c := by
  intro a b c hab hbc
  simp only [rankLe, decide_eq_true_eq] at *
  exact le_trans hab hbc

/-- The rank order used by `mapOrder` is total. -/
theorem rankLe_total {α : Type} (ord : List Nat) (k : α → Nat) :
    ∀ a b : α, rankLe ord k a b || rankLe ord k b a := by
  intro a b
  rcases le_total (jsIndexOf ord (k a)) (jsIndexOf ord (k b)) with h | h <;>
    simp [rankLe, h]

/-- When the card is found in the list, `replaceFirstCard` makes the first
matching entry equal to the incoming card. -/
theorem replaceFirstCard_find (cards : List Card) (u c0 : Card)
    (h : cards.find? (fun c => c._id == u._id) = some c0) :
    (replaceFirstCard cards u).find? (fun c => c._id == u._id) = some u := by
  induction cards with
  | nil => simp [List.find?] at h
  | cons c cs ih =>
    rcases hc : (c._id == u._id) with _ | _
    · rw [List.find?_cons, hc] at h
      simp only [replaceFirstCard, hc, Bool.false_eq_true, if_false]
      rw [List.find?_cons, hc]
      exact ih h
    · simp [replaceFirstCard, hc, List.find?_cons]

/-- When no card matches, `replaceFirstCard` changes nothing. -/
theorem replaceFirstCard_of_none (cards : List Card) (u : Card)
    (h : cards.find? (fun c => c._id == u._id) = none) :
    replaceFirstCard cards u = cards := by
  induction cards with
  | nil => rfl
  | cons c cs ih =>
    rw [List.find?_cons] at h
    rcases hc : (c._id == u._id) with _ | _
    · rw [hc] at h
      simp only [replaceFirstCard, hc, Bool.false_eq_true, if_false]
      rw [ih h]
    · rw [hc] at h
      simp at h

/-- When the card is found in the column named by the payload's
`column_id`, the column scan lands and the readback yields the payload. -/
theorem updateCardInColumns_lands (cols : List Column) (u c0 : Card)
    (h : findCardInColumns cols u._id u.column_id = some c0) :
    findCardInColumns (updateCardInColumns cols u) u._id u.column_id = some u := by
  induction cols with
  | nil => simp [findCardInColumns, List.find?] at h
  | cons col rest ih =>
    rcases hc : (col._id == u.column_id) with _ | _
    · simp only [findCardInColumns, List.find?_cons, hc] at h
      simp only [updateCardInColumns, hc, Bool.false_eq_true, if_false]
      simp only [findCardInColumns, List.find?_cons, hc]
      exact ih h
    · simp only [findCardInColumns, List.find?_cons, hc] at h
      simp only [updateCardInColumns, hc, if_true]
      simp only [findCardInColumns, List.find?_cons, hc]
      exact replaceFirstCard_find col.cards u c0 h

/-- When the readback misses, the column scan changes nothing. -/
theorem updateCardInColumns_noop (cols : List Column) (u : Card)
    (h : findCardInColumns cols u._id u.column_id = none) :
    updateCardInColumns cols u = cols := by
  induction cols with
  | nil => rfl
  | cons col rest ih =>
    rcases hc : (col._id == u.column_id) with _ | _
    · simp only [findCardInColumns, List.find?_cons, hc] at h
      simp only [updateCardInColumns, hc, Bool.false_eq_true, if_false]
      rw [ih h]
    · simp only [findCardInColumns, List.find?_cons, hc] at h
      simp only [updateCardInColumns, hc, if_true]
      rw [replaceFirstCard_of_none col.cards u h]

/-- The board-level readback is the column-list readback. -/
theorem findCardInBoard_eq (b : Board) (cardId columnId : Nat) :
    findCardInBoard b cardId columnId = findCardInColumns b.columns cardId columnId := rfl

/-- `addCardToColumns` rewrites exactly the first column whose id is the
new card's `column_id`, with the placeholder-stripping branch. -/
theorem addCardToColumns_find (cols : List Column) (newCard : Card) (col : Column)
    (h : cols.find? (fun c2 => c2._id == newCard.column_id) = some col) :
    (addCardToColumns cols newCard).find? (fun c2 => c2._id == newCard.column_id) =
      some (if col.cards.any (fun c => c.FE_PlaceholderCard) then
              { col with cards := [newCard], card_order_ids := [newCard._id] }
            else
              { col with cards := col.cards ++ [newCard],
                         card_order_ids := col.card_order_ids ++ [newCard._id] }) := by
  induction cols with
  | nil => simp [List.find?] at h
  | cons c2 rest ih =>
    rcases hc : (c2._id == newCard.column_id) with _ | _
    · rw [List.find?_cons, hc] at h
      simp only [addCardToColumns, hc, Bool.false_eq_true, if_false]
      rw [List.find?_cons, hc]
      exact ih h
    · rw [List.find?_cons, hc] at h
      injection h with h
      subst h
      rcases hp : (c2.cards.any (fun c => c.FE_PlaceholderCard)) with _ | _
      · simp only [addCardToColumns, hc, if_true, hp, Bool.false_eq_true, if_false]
        rw [List.find?_cons]
        simp [hc, hp]
      · simp only [addCardToColumns, hc, if_true, hp]
        rw [List.find?_cons]
        simp [hc, hp]

/- Claim theorems. -/

/-- C1, counterexample: the claim is false on the code. `mapOrder` does not
drop entities whose key is absent from the order list and does not bound
its output by the order list's length: with one entity whose key `1` does
not occur in the empty order list, the output still contains that entity
and has length `1 > 0`. -/
theorem C1_mapOrder_counterexample :
    mapOrder (some [cex1Entity]) (some []) (some Entity.key) = [cex1Entity] ∧
    ¬ ((mapOrder (some [cex1Entity]) (some []) (some Entity.key)).length ≤
        ([] : List Nat).length) := by
  constructor
  · simp [mapOrder]
  · simp [mapOrder]

/-- C1, amended: for every entity array, order list and key, `mapOrder`
returns a permutation of the whole entity array — nothing is dropped and
nothing is added, so the output length equals the entity array's length —
arranged in nondecreasing order of each entity's index in the order list
(missing keys have index `-1` and sort to the front); in particular
entities whose keys occur in the order list appear in the order list's
relative sequence. -/
theorem C1_mapOrder_sorts_by_order_index {α : Type} (arr : List α) (ord : List Nat)
    (k : α → Nat) :
    List.Perm (mapOrder (some arr) (some ord) (some k)) arr ∧
    (mapOrder (some arr) (some ord) (some k)).length = arr.length ∧
    (mapOrder (some arr) (some ord) (some k)).Pairwise
      (fun a b => jsIndexOf ord (k a) ≤ jsIndexOf ord (k b)) := by
  refine ⟨List.mergeSort_perm arr _, by simp [mapOrder], ?_⟩
  have h := List.sorted_mergeSort (rankLe_trans ord k) (rankLe_total ord k) arr
  simp only [mapOrder]
  exact h.imp (fun hab => by simpa [rankLe, decide_eq_true_eq] using hab)

/-- C2: when the `updateCard` request fails, no store mutation is
dispatched — the active board and the active card (hence every card title)
are untouched — no socket event is emitted, exactly one failure toast is
recorded, exactly one request was issued (no retry), and the error is
rethrown to the caller. -/
theorem C2_updateCard_failure_frame (s : ClientState) (e : String) :
    (handleUpdateActiveCard s (.error e)).1.activeBoard = s.activeBoard ∧
    (handleUpdateActiveCard s (.error e)).1.activeCard = s.activeCard ∧
    (handleUpdateActiveCard s (.error e)).1.emitted = s.emitted ∧
    (handleUpdateActiveCard s (.error e)).1.toasts = s.toasts ++ [updateCardErrorToast] ∧
    (handleUpdateActiveCard s (.error e)).1.requests = s.requests + 1 ∧
    (handleUpdateActiveCard s (.error e)).2 = .error e :=
  ⟨rfl, rfl, rfl, rfl, rfl, rfl⟩

/-- C3, counterexample: the claim is false on the code. When the push
listener delivers a payload whose id matches the open ActiveCard but whose
`column_id` differs from the column the embedded copy currently sits in,
the ActiveCard copy is replaced while the board-embedded copy is left
untouched, so the two copies disagree on the updated `title`. -/
theorem C3_dual_write_counterexample :
    cex3State.activeCard = some cex3Card ∧
    cex3Card._id = cex3Incoming._id ∧
    (onUpdateCard cex3State cex3Incoming).activeCard = some cex3Incoming ∧
    ((onUpdateCard cex3State cex3Incoming).activeBoard.bind
        (fun b => findCardInBoard b cex3Incoming._id 10)).map Card.title = some "old" ∧
    cex3Incoming.title = "new" := by
  decide

/-- C3, amended: both mutation paths — the gateway's confirmation path and
the push listener's card-updated path — dispatch the same pair of store
mutations, and the two copies of the card agree on every updated field
provided the board column whose `_id` equals the payload's `column_id`
actually contains a card with the payload's id; after either path both the
ActiveCard and the board-embedded copy read back as exactly the payload. -/
theorem C3_dual_write (s : ClientState) (b : Board) (u ac c0 : Card)
    (hb : s.activeBoard = some b)
    (hac : s.activeCard = some ac)
    (hid : ac._id = u._id)
    (hland : findCardInBoard b u._id u.column_id = some c0) :
    (handleUpdateActiveCard s (.ok u)).1.activeCard = some u ∧
    ((handleUpdateActiveCard s (.ok u)).1.activeBoard.bind
        (fun b2 => findCardInBoard b2 u._id u.column_id)) = some u ∧
    (onUpdateCard s u).activeCard = some u ∧
    ((onUpdateCard s u).activeBoard.bind
        (fun b2 => findCardInBoard b2 u._id u.column_id)) = some u := by
  have key : findCardInColumns (updateCardInColumns b.columns u) u._id u.column_id = some u :=
    updateCardInColumns_lands b.columns u c0 (by rw [← findCardInBoard_eq]; exact hland)
  refine ⟨?_, ?_, ?_, ?_⟩ <;>
    simp [handleUpdateActiveCard, updateCardMutationCall, updateActiveCard,
      updateCardInBoard, onUpdateCard, hb, findCardInBoard_eq, key]

/-- C3, witness: the dual-write theorem applied to a concrete state whose
embedded copy sits in the column named by the payload. -/
theorem C3_dual_write_witness :
    (handleUpdateActiveCard w3State (.ok w3Incoming)).1.activeCard = some w3Incoming ∧
    ((handleUpdateActiveCard w3State (.ok w3Incoming)).1.activeBoard.bind
        (fun b2 => findCardInBoard b2 w3Incoming._id w3Incoming.column_id)) = some w3Incoming ∧
    (onUpdateCard w3State w3Incoming).activeCard = some w3Incoming ∧
    ((onUpdateCard w3State w3Incoming).activeBoard.bind
        (fun b2 => findCardInBoard b2 w3Incoming._id w3Incoming.column_id)) = some w3Incoming :=
  C3_dual_write w3State w3Board w3Incoming w3Card w3Card rfl rfl rfl (by decide)

/-- C4, counterexample: the claim is false on the code. In the
column-reorder path (`onMoveColumns`) the broadcast emit is fired right
after the request is issued, before the network call resolves, and the
store dispatch carries the locally assembled board, not the entity from the
server response. -/
theorem C4_lifecycle_counterexample :
    ¬ emitsOnlyAfterResolution (onMoveColumnsTrace cex4Board [cex4Col] (.ok cex4Server)) ∧
    dispatchedBoards (onMoveColumnsTrace cex4Board [cex4Col] (.ok cex4Server)) =
      [moveColumnsLocalBoard cex4Board [cex4Col]] ∧
    moveColumnsLocalBoard cex4Board [cex4Col] ≠ cex4Server := by
  refine ⟨?_, by decide, by decide⟩
  intro h
  simp [emitsOnlyAfterResolution, onMoveColumnsTrace, isResolvedEv, isEmitEv,
    List.takeWhile, List.all] at h

/-- C4, amended: in the card-update path every emit happens after the
network resolution and both store dispatches and the emit carry exactly the
server's canonical card (nothing is dispatched or emitted on failure); in
the column-reorder path the optimistic store dispatch is the first event,
the resolution is the last, and the only dispatched and the only emitted
board are the locally assembled one, so the emit precedes the resolution
and the server response is never dispatched. -/
theorem C4_lifecycle_order (u : Card) (e : String) (r : Except String Card)
    (b : Board) (cols : List Column) (rb : Except String Board) :
    emitsOnlyAfterResolution (handleUpdateActiveCardTrace r) ∧
    dispatchedCards (handleUpdateActiveCardTrace (.ok u)) = [u, u] ∧
    emittedCards (handleUpdateActiveCardTrace (.ok u)) = [u] ∧
    dispatchedCards (handleUpdateActiveCardTrace (.error e)) = [] ∧
    emittedCards (handleUpdateActiveCardTrace (.error e)) = [] ∧
    (onMoveColumnsTrace b cols rb).head? =
      some (.dispatchActiveBoard (moveColumnsLocalBoard b cols)) ∧
    (onMoveColumnsTrace b cols rb).getLast? = some (.resolved rb.toBool) ∧
    dispatchedBoards (onMoveColumnsTrace b cols rb) = [moveColumnsLocalBoard b cols] ∧
    emittedBoards (onMoveColumnsTrace b cols rb) = [moveColumnsLocalBoard b cols] := by
  refine ⟨?_, by simp [handleUpdateActiveCardTrace, dispatchedCards],
    by simp [handleUpdateActiveCardTrace, emittedCards],
    by simp [handleUpdateActiveCardTrace, dispatchedCards],
    by simp [handleUpdateActiveCardTrace, emittedCards],
    rfl, rfl,
    by simp [onMoveColumnsTrace, dispatchedBoards],
    by simp [onMoveColumnsTrace, emittedBoards]⟩
  rcases r with e2 | u2 <;> rfl

/-- C4, witness: the lifecycle-order theorem applied at a concrete
successful card update and a concrete column reorder. -/
theorem C4_lifecycle_order_witness :
    emitsOnlyAfterResolution (handleUpdateActiveCardTrace (.ok w3Incoming)) ∧
    emittedBoards (onMoveColumnsTrace cex4Board [cex4Col] (.ok cex4Server)) =
      [moveColumnsLocalBoard cex4Board [cex4Col]] :=
  ⟨(C4_lifecycle_order w3Incoming "x" (.ok w3Incoming) cex4Board [cex4Col] (.ok cex4Server)).1,
   (C4_lifecycle_order w3Incoming "x" (.ok w3Incoming) cex4Board [cex4Col]
      (.ok cex4Server)).2.2.2.2.2.2.2.2⟩

/-- C5, counterexample: the claim is false on the code. `updateCardInBoard`
locates the owning column through the payload's `column_id` field, not by
scanning for the card itself: here the card with id 51 currently lives in
column 50, the payload carries `column_id` 60, and the whole mutation is a
no-op — the merge does not land on the card where it lives. -/
theorem C5_updateCardInBoard_counterexample :
    findCardInBoard cex5Board cex5Incoming._id 50 = some cex5Card ∧
    cex5Card.title ≠ cex5Incoming.title ∧
    updateCardInBoard cex5State cex5Incoming = cex5State := by
  decide

/-- C5, amended: `updateCardInBoard` scans the board's columns for the
first column whose `_id` equals the payload's `column_id` and merges the
payload into the first card of that column with the payload's id; when
that column does not contain such a card (or no such column exists) the
state is left entirely unchanged. -/
theorem C5_updateCardInBoard_locates_by_column_id (s : ClientState) (b : Board) (u : Card)
    (hb : s.activeBoard = some b) :
    (∀ c0, findCardInBoard b u._id u.column_id = some c0 →
      ((updateCardInBoard s u).activeBoard.bind
          (fun b2 => findCardInBoard b2 u._id u.column_id)) = some u) ∧
    (findCardInBoard b u._id u.column_id = none → updateCardInBoard s u = s) := by
  constructor
  · intro c0 hland
    have key : findCardInColumns (updateCardInColumns b.columns u) u._id u.column_id = some u :=
      updateCardInColumns_lands b.columns u c0 (by rw [← findCardInBoard_eq]; exact hland)
    simp [updateCardInBoard, hb, findCardInBoard_eq, key]
  · intro hnone
    have key : updateCardInColumns b.columns u = b.columns :=
      updateCardInColumns_noop b.columns u (by rw [← findCardInBoard_eq]; exact hnone)
    simp only [updateCardInBoard, hb, key]
    rw [← hb]

/-- C5, witness: the characterization applied at a concrete state where the
merge lands and at one where it is a no-op. -/
theorem C5_updateCardInBoard_witness :
    ((updateCardInBoard w5State w5Incoming).activeBoard.bind
        (fun b2 => findCardInBoard b2 w5Incoming._id w5Incoming.column_id)) = some w5Incoming ∧
    updateCardInBoard w5State w5Stray = w5State :=
  ⟨(C5_updateCardInBoard_locates_by_column_id w5State w5Board w5Incoming rfl).1 w5Card
      (by decide),
   (C5_updateCardInBoard_locates_by_column_id w5State w5Board w5Stray rfl).2 (by decide)⟩

/-- C6: the reaction toggle's request is `remove` exactly when the target
comment already holds a reaction with the selected emoji and the current
user's email — and then it carries that reaction's `reaction_id` — and
`add` exactly when no such pair exists, so an add is never issued for an
existing pair. -/
theorem C6_reaction_toggle (comment : CardComment) (email : Option String) (emoji : String) :
    ((buildReactionPayload comment email emoji).action = .remove ↔
      ∃ r ∈ comment.reactions, r.emoji = emoji ∧ some r.user_email = email) ∧
    ((buildReactionPayload comment email emoji).action = .add ↔
      ¬ ∃ r ∈ comment.reactions, r.emoji = emoji ∧ some r.user_email = email) ∧
    ((buildReactionPayload comment email emoji).action = .remove →
      ∃ r ∈ comment.reactions, r.emoji = emoji ∧ some r.user_email = email ∧
        (buildReactionPayload comment email emoji).reaction_id = some r.reaction_id) := by
  cases h : comment.reactions.find? (fun r => r.emoji == emoji && some r.user_email == email) with
  | none =>
    have hact : (buildReactionPayload comment email emoji).action = .add := by
      simp [buildReactionPayload, h]
    have hnone : ¬ ∃ r ∈ comment.reactions, r.emoji = emoji ∧ some r.user_email = email := by
      rintro ⟨r, hr, he, hu⟩
      have hall := List.find?_eq_none.mp h r hr
      simp [he, hu] at hall
    exact ⟨⟨fun hrem => absurd (hact.symm.trans hrem) (by decide),
        fun hex => absurd hex hnone⟩,
      ⟨fun _ => hnone, fun _ => hact⟩,
      fun hrem => absurd (hact.symm.trans hrem) (by decide)⟩
  | some r =>
    have hact : (buildReactionPayload comment email emoji).action = .remove := by
      simp [buildReactionPayload, h]
    have hmem := List.mem_of_find?_eq_some h
    have hpred := List.find?_some h
    simp only [Bool.and_eq_true, beq_iff_eq] at hpred
    refine ⟨⟨fun _ => ⟨r, hmem, hpred.1, hpred.2⟩, fun _ => hact⟩,
      ⟨fun hadd => absurd (hact.symm.trans hadd) (by decide), fun hno => ?_⟩,
      fun _ => ⟨r, hmem, hpred.1, hpred.2, by simp [buildReactionPayload, h]⟩⟩
    exact absurd ⟨r, hmem, hpred.1, hpred.2⟩ hno

/-- C6, witness: the toggle theorem applied at a concrete comment that
already holds the pair, yielding the remove action with the reaction's
id. -/
theorem C6_reaction_toggle_witness :
    ∃ r ∈ w6Comment.reactions, r.emoji = "thumbs" ∧ some r.user_email = some "a@b.c" ∧
      (buildReactionPayload w6Comment (some "a@b.c") "thumbs").reaction_id =
        some r.reaction_id :=
  (C6_reaction_toggle w6Comment (some "a@b.c") "thumbs").2.2 (by decide)

/-- C7, counterexample: the claim is false on the code. The board-updated
listener applies the payload unconditionally: an event for a board other
than the currently viewed one still replaces the store's active board. -/
theorem C7_listener_counterexample :
    cex7Foreign._id ≠ cex7Current._id ∧
    cex7State.activeBoard = some cex7Current ∧
    (onUpdateBoard cex7State cex7Foreign).activeBoard ≠ cex7State.activeBoard := by
  decide

/-- C7, amended: the push listeners apply every delivered event to the
store unconditionally — `onUpdateBoard` always installs the payload as the
active board (so a payload differing from the current one always changes
the store) and `onUpdateCard` always replaces the ActiveCard; scoping to
the current board comes from the server-side room membership established by
the join/leave emits, not from a client-side check. -/
theorem C7_listener_applies_unconditionally (s : ClientState) (b : Board) (c : Card) :
    (onUpdateBoard s b).activeBoard = some b ∧
    (s.activeBoard ≠ some b → (onUpdateBoard s b).activeBoard ≠ s.activeBoard) ∧
    (onUpdateCard s c).activeCard = some c := by
  refine ⟨rfl, ?_, ?_⟩
  · intro hne heq
    exact hne heq.symm
  · cases hb : s.activeBoard <;>
      simp [onUpdateCard, updateCardInBoard, updateActiveCard, hb]

/-- C7, witness: the unconditional-application theorem at a concrete state
whose current board differs from the event's board. -/
theorem C7_listener_unconditional_witness :
    (onUpdateBoard cex7State cex7Foreign).activeBoard = some cex7Foreign ∧
    (onUpdateBoard cex7State cex7Foreign).activeBoard ≠ cex7State.activeBoard :=
  ⟨(C7_listener_applies_unconditionally cex7State cex7Foreign w7Card).1,
   (C7_listener_applies_unconditionally cex7State cex7Foreign w7Card).2.1 (by decide)⟩

/-- C8: after `addNewCard`'s board update with the server-returned card, a
column that contained the synthetic placeholder holds exactly the one new
card in both its card list and its `card_order_ids` (and no placeholder),
a column without a placeholder gets the new card appended to both lists,
and the request body is built from the title and the column's ids alone —
it does not depend on the column's card list, so the placeholder is never
sent to the server. -/
theorem C8_addNewCard_placeholder (cols : List Column) (newCard : Card) (col : Column)
    (hfind : cols.find? (fun c2 => c2._id == newCard.column_id) = some col)
    (hnp : newCard.FE_PlaceholderCard = false) :
    (∃ col2,
      (addCardToColumns cols newCard).find? (fun c2 => c2._id == newCard.column_id) =
        some col2 ∧
      (col.cards.any (fun c => c.FE_PlaceholderCard) = true →
        col2.cards = [newCard] ∧ col2.card_order_ids = [newCard._id] ∧
        col2.cards.any (fun c => c.FE_PlaceholderCard) = false) ∧
      (col.cards.any (fun c => c.FE_PlaceholderCard) = false →
        col2.cards = col.cards ++ [newCard] ∧
        col2.card_order_ids = col.card_order_ids ++ [newCard._id])) ∧
    (∀ t cs, buildAddCardBody t { col with cards := cs } = buildAddCardBody t col) := by
  refine ⟨⟨_, addCardToColumns_find cols newCard col hfind, ?_, ?_⟩, fun t cs => rfl⟩
  · intro hp
    simp [hp, hnp]
  · intro hp
    simp [hp]

/-- C8, witness: the placeholder-stripping theorem at a concrete column
holding only the placeholder. -/
theorem C8_addNewCard_placeholder_witness :
    ∃ col2,
      (addCardToColumns [w8ColEmpty] w8New).find? (fun c2 => c2._id == w8New.column_id) =
        some col2 ∧
      (w8ColEmpty.cards.any (fun c => c.FE_PlaceholderCard) = true →
        col2.cards = [w8New] ∧ col2.card_order_ids = [w8New._id] ∧
        col2.cards.any (fun c => c.FE_PlaceholderCard) = false) ∧
      (w8ColEmpty.cards.any (fun c => c.FE_PlaceholderCard) = false →
        col2.cards = w8ColEmpty.cards ++ [w8New] ∧
        col2.card_order_ids = w8ColEmpty.card_order_ids ++ [w8New._id]) :=
  (C8_addNewCard_placeholder [w8ColEmpty] w8New w8ColEmpty (by decide) rfl).1

/-- C9: `mapOrder` is total and returns the empty sequence whenever the
entity array, the order list or the key is missing, and on the empty
entity array. -/
theorem C9_mapOrder_malformed_inputs {α : Type} :
    (∀ (o : Option (List Nat)) (k : Option (α → Nat)), mapOrder none o k = []) ∧
    (∀ (a : Option (List α)) (k : Option (α → Nat)), mapOrder a none k = []) ∧
    (∀ (a : Option (List α)) (o : Option (List Nat)), mapOrder a o none = []) ∧
    (∀ (o : List Nat) (k : α → Nat), mapOrder (some []) (some o) (some k) = []) := by
  refine ⟨?_, ?_, ?_, ?_⟩
  · intro o k; cases o <;> cases k <;> rfl
  · intro a k; cases a <;> cases k <;> rfl
  · intro a o; cases a <;> cases o <;> rfl
  · intro o k; simp [mapOrder]

/-- C10: the invitation push handler appends the invitation and raises the
new-notification flag exactly when the invitation's `invitee_id` equals the
logged-in profile's id, and leaves the state unchanged otherwise. -/
theorem C10_invitation_filter (pid : Option Nat) (s : NotificationsState) (inv : Invitation) :
    (some inv.invitee_id = pid →
      (onReceiveNewInvitation pid s inv).notifications = s.notifications ++ [inv] ∧
      (onReceiveNewInvitation pid s inv).hasNewNotification = true) ∧
    (some inv.invitee_id ≠ pid → onReceiveNewInvitation pid s inv = s) := by
  constructor
  · intro heq
    have hbeq : (some inv.invitee_id == pid) = true := by simp [heq]
    simp [onReceiveNewInvitation, addNotification, hbeq]
  · intro hne
    have hbeq : (some inv.invitee_id == pid) = false := by
      simp [beq_eq_false_iff_ne, hne]
    simp [onReceiveNewInvitation, hbeq]

/-- C10, witness: the filter theorem at a matching and a non-matching
profile id. -/
theorem C10_invitation_filter_witness :
    ((onReceiveNewInvitation (some 7) w10State w10Inv).notifications =
        w10State.notifications ++ [w10Inv] ∧
      (onReceiveNewInvitation (some 7) w10State w10Inv).hasNewNotification = true) ∧
    onReceiveNewInvitation (some 8) w10State w10Inv = w10State :=
  ⟨(C10_invitation_filter (some 7) w10State w10Inv).1 rfl,
   (C10_invitation_filter (some 8) w10State w10Inv).2 (by decide)⟩

end Trellone
